import Mathlib

/-!
Verification of the download-orchestration core of `pytube_downloader.py`:
filename sanitizer, filesystem layout manager, progress reporter, download
orchestrator and thumbnail resolver, shallowly embedded in Lean.

Strings are modelled as Lean `String` (lists of characters); Python string
slicing/truncation operates on code points, which matches `List.take` on
`String.data`.  Machine-level concerns (actual filesystem, network engine)
are abstracted as explicit inputs, as documented at each definition.
-/

/-- The set of characters replaced by the sanitizer, as matched by the
regular expression at line 29 of the source:
characters in the character class followed by the control ranges
0x00-0x1F and 0x7F, plus the bracket, comma and hash characters. -/
def reservedChar (c : Char) : Bool :=
  c = '<' || c = '>' || c = ':' || c = '"' || c = '/' || c = '\\' ||
  c = '|' || c = '?' || c = '*' || c.toNat ≤ 0x1F || c.toNat = 0x7F ||
  c = '[' || c = ']' || c = ',' || c = '#'

/-- Embedding of `sanitize_filename` (source lines 27-34): replace every
character matched by the regex with an underscore, then replace spaces
with underscores, then truncate to the first 255 characters. -/
def sanitize_filename (filename : String) : String :=
  let s1 := filename.data.map fun c => if reservedChar c then '_' else c
  let s2 := s1.map fun c => if c = ' ' then '_' else c
  ⟨s2.take 255⟩

/-- The single-character transformation the sanitizer applies pointwise
before truncation. -/
def sanitizeChar (c : Char) : Char :=
  if (if reservedChar c then '_' else c) = ' ' then '_'
  else if reservedChar c then '_' else c

/-- A progress dictionary as passed by the engine to the progress hook:
its `status` field and, when the `_percent_str` key is present, the raw
percent string. -/
structure ProgressEvent where
  status : String
  percentStr : Option String
deriving DecidableEq

/-- Python `str.strip` with argument `'%'`: remove `'%'` characters from
both ends of the string (source line 45 applies it to the cleaned
percent text). -/
def stripPercent (l : List Char) : List Char :=
  ((l.dropWhile (fun c => c = '%')).reverse.dropWhile (fun c => c = '%')).reverse

/-- Python `int(...)` restricted to the strings that can reach it at
source line 45 (characters are digits or `'%'` only): parses when the
string is nonempty and all digits, otherwise raises `ValueError`
(modelled as `none`). -/
def parseDigits (l : List Char) : Option Nat :=
  if l ≠ [] ∧ l.all (fun c => c.isDigit) then
    some (l.foldl (fun n c => n * 10 + (c.toNat - 48)) 0)
  else none

/-- The fraction computed and published at source lines 43-48: keep only
digit and `'%'` characters, strip `'%'` from the ends, parse as an
integer and divide by 100; on a parse failure publish 0. -/
def publishValue (pct : String) : ℚ :=
  let cleaned := pct.data.filter fun c => c.isDigit || c = '%'
  match parseDigits (stripPercent cleaned) with
  | some n => (n : ℚ) / 100
  | none => 0

/-- Embedding of `update_progress` (source lines 37-48). `stopSet` is the
state of the cancellation flag at the moment the hook runs.  The result
is `Except.error` when the hook raises the cancellation exception,
`Except.ok (some q)` when it publishes the fraction `q` to the progress
bar, and `Except.ok none` when it publishes nothing.  The progress-bar
sink itself is an out-of-scope presentation collaborator and is modelled
as accepting any value. -/
def update_progress (stopSet : Bool) (d : ProgressEvent) : Except String (Option ℚ) :=
  if stopSet then Except.error "Download cancelled by user."
  else if d.status = "downloading" then
    match d.percentStr with
    | some pct => Except.ok (some (publishValue pct))
    | none => Except.ok none
  else Except.ok none

/-- One possible terminal behaviour of a single `yt_dlp.YoutubeDL` engine
invocation, abstracting the opaque external engine: it either completes
and reports an info dictionary (whose `title` and `ext` keys may be
missing, modelled as `Option`), or raises `yt_dlp.DownloadError`, or
raises some other exception. -/
inductive EngineBehavior where
  | ok (title ext : Option String)
  | downloadError (msg : String)
  | unexpectedError (msg : String)
deriving DecidableEq

/-- A Python exception crossing the engine boundary: either a
`yt_dlp.DownloadError` or any other `Exception` carrying a message. -/
inductive PyExc where
  | downloadErr (msg : String)
  | generic (msg : String)
deriving DecidableEq

/-- One engine invocation as observed by the orchestrator: the progress
events the engine emits to its registered hooks during the download,
followed by its terminal behaviour. -/
structure EngineRun where
  events : List ProgressEvent
  behavior : EngineBehavior
deriving DecidableEq

/-- The engine invoking the registered progress hook (the lambda at
source line 59) on each emitted event in order.  When no progress bar
was supplied the hook list is empty and no hook runs.  An exception
raised by the hook propagates out of the engine call. -/
def run_hooks (stopSet hooksOn : Bool) : List ProgressEvent → Except String Unit
  | [] => Except.ok ()
  | e :: rest =>
    if hooksOn then
      match update_progress stopSet e with
      | Except.error m => Except.error m
      | Except.ok _ => run_hooks stopSet hooksOn rest
    else Except.ok ()

/-- Embedding of `ydl.extract_info(url, download=True)` as used at source
line 64: the hooks run on the emitted events; a hook exception
propagates; otherwise the engine finishes with its terminal behaviour,
yielding the optional `title` and `ext` fields of the info dictionary. -/
def extract_info (stopSet hooksOn : Bool) (run : EngineRun) :
    Except PyExc (Option String × Option String) :=
  match run_hooks stopSet hooksOn run.events with
  | Except.error m => Except.error (PyExc.generic m)
  | Except.ok () =>
    match run.behavior with
    | EngineBehavior.ok t e => Except.ok (t, e)
    | EngineBehavior.downloadError m => Except.error (PyExc.downloadErr m)
    | EngineBehavior.unexpectedError m => Except.error (PyExc.generic m)

/-- Embedding of `ydl.download([url])` as used at source lines 128 and
152: same as `extract_info` but no info dictionary is consumed. -/
def ydl_download (stopSet hooksOn : Bool) (run : EngineRun) : Except PyExc Unit :=
  match extract_info stopSet hooksOn run with
  | Except.ok _ => Except.ok ()
  | Except.error e => Except.error e

/-- Python `os.path.join` for the uses in this file (absolute non-empty
left operand without a trailing separator, relative right operand). -/
def os_path_join (a b : String) : String := a ++ "/" ++ b

/-- Source line 15: the main download folder, under the current working
directory (kept as a parameter). -/
def DOWNLOAD_FOLDER (cwd : String) : String := os_path_join cwd "youtube_downloads"

/-- Source line 16: the video subfolder. -/
def VIDEO_FOLDER (cwd : String) : String := os_path_join (DOWNLOAD_FOLDER cwd) "Videos"

/-- Source line 17: the audio subfolder. -/
def AUDIO_FOLDER (cwd : String) : String := os_path_join (DOWNLOAD_FOLDER cwd) "Audio"

/-- Embedding of `download_best_stream` (source lines 51-82).
`fsResult` is the outcome of the `create_folders()` call at line 53:
since that call sits before the `try` block, a filesystem exception
there propagates out of the function (`Except.error`).  Inside the
`try`, a `DownloadError` and any other exception are both caught and
turned into the return value `None` (`Except.ok none`); on success the
function returns the path joined from the video folder, the sanitized
title (default `"Untitled"`) and the reported extension (default
`"mp4"`). -/
def download_best_stream (cwd : String) (fsResult : Except String Unit)
    (stopSet hooksOn : Bool) (run : EngineRun) : Except String (Option String) :=
  match fsResult with
  | Except.error m => Except.error m
  | Except.ok () =>
    match extract_info stopSet hooksOn run with
    | Except.ok (t, e) =>
        Except.ok (some (os_path_join (VIDEO_FOLDER cwd)
          (sanitize_filename (t.getD "Untitled") ++ "." ++ e.getD "mp4")))
    | Except.error (PyExc.downloadErr _) => Except.ok none
    | Except.error (PyExc.generic _) => Except.ok none

/-- Embedding of `download_audio` (source lines 85-114): same shape as
`download_best_stream`, but the returned path lives in the audio folder
and always carries the `.mp3` extension (source line 104), regardless of
the engine-reported extension. -/
def download_audio (cwd : String) (fsResult : Except String Unit)
    (stopSet hooksOn : Bool) (run : EngineRun) : Except String (Option String) :=
  match fsResult with
  | Except.error m => Except.error m
  | Except.ok () =>
    match extract_info stopSet hooksOn run with
    | Except.ok (t, _) =>
        Except.ok (some (os_path_join (AUDIO_FOLDER cwd)
          (sanitize_filename (t.getD "Untitled") ++ ".mp3")))
    | Except.error (PyExc.downloadErr _) => Except.ok none
    | Except.error (PyExc.generic _) => Except.ok none

/-- Embedding of `download_playlist` (source lines 117-138): on success
it returns the video folder itself (source line 130), not an item path. -/
def download_playlist (cwd : String) (fsResult : Except String Unit)
    (stopSet hooksOn : Bool) (run : EngineRun) : Except String (Option String) :=
  match fsResult with
  | Except.error m => Except.error m
  | Except.ok () =>
    match ydl_download stopSet hooksOn run with
    | Except.ok () => Except.ok (some (VIDEO_FOLDER cwd))
    | Except.error _ => Except.ok none

/-- Embedding of `download_channel` (source lines 141-162): on success it
returns the video folder itself (source line 154). -/
def download_channel (cwd : String) (fsResult : Except String Unit)
    (stopSet hooksOn : Bool) (run : EngineRun) : Except String (Option String) :=
  match fsResult with
  | Except.error m => Except.error m
  | Except.ok () =>
    match ydl_download stopSet hooksOn run with
    | Except.ok () => Except.ok (some (VIDEO_FOLDER cwd))
    | Except.error _ => Except.ok none

/-- A filesystem state for the layout manager: the set of directories
that exist, as a list of paths. -/
def makedirs (p : String) (fs : List String) : List String :=
  if p ∈ fs then fs else p :: fs

/-- Embedding of `create_folders` (source lines 20-24): three
`os.makedirs(..., exist_ok=True)` calls on the main folder and the two
subfolders.  With `exist_ok=True` an existing directory is not an
error, so the operation is total on the filesystem state; unrecoverable
filesystem errors are outside this state model (they are the `fsResult`
input of the orchestrator functions). -/
def create_folders (cwd : String) (fs : List String) : List String :=
  makedirs (AUDIO_FOLDER cwd) (makedirs (VIDEO_FOLDER cwd) (makedirs (DOWNLOAD_FOLDER cwd) fs))

/-- Python `str.split(sep)` for a single-character separator: split on
every occurrence, keeping empty pieces. -/
def splitOnChar (sep : Char) : List Char → List (List Char)
  | [] => [[]]
  | c :: rest =>
    let r := splitOnChar sep rest
    if c = sep then [] :: r
    else
      match r with
      | [] => [[c]]
      | h :: t => (c :: h) :: t

/-- Is `needle` a contiguous substring of `hay`?  Models the Python `in`
operator on strings (source lines 174 and 181). -/
def containsSub (needle : List Char) : List Char → Bool
  | [] => needle.isEmpty
  | c :: rest => needle.isPrefixOf (c :: rest) || containsSub needle rest

/-- The components of a parsed URL used by the thumbnail resolver. -/
structure ParsedUrl where
  netloc : String
  path : String
  query : String
deriving DecidableEq

/-- A character that may appear in a URL scheme. -/
def schemeChar (c : Char) : Bool := c.isAlphanum || c = '+' || c = '-' || c = '.'

/-- Remove a leading `scheme:` from a URL, as `urllib.parse.urlparse`
does: the text before the first `':'` is a scheme when it is nonempty,
starts with a letter and consists of scheme characters. -/
def dropScheme (l : List Char) : List Char :=
  let before := l.takeWhile (fun c => c ≠ ':')
  if before.length < l.length then
    match before with
    | [] => l
    | c :: rest =>
      if c.isAlpha && rest.all schemeChar then l.drop (before.length + 1) else l
  else l

/-- Embedding of `urllib.parse.urlparse` restricted to the fields the
resolver reads (`netloc`, `path`, `query`).  After the scheme, a part
starting with `//` carries the network location up to the next `/`,
`?` or `#`; the query follows the first `?`; a fragment after `#` is
split off.  Percent-decoding is not modelled (no input in scope uses
it). -/
def urlparse (url : String) : ParsedUrl :=
  let rest := (dropScheme url.data).takeWhile (fun c => c ≠ '#')
  match rest with
  | '/' :: '/' :: r =>
    let netloc := r.takeWhile fun c => c ≠ '/' && c ≠ '?' && c ≠ '#'
    let after := r.drop netloc.length
    let path := after.takeWhile (fun c => c ≠ '?')
    let query := (after.drop path.length).drop 1
    ⟨⟨netloc⟩, ⟨path⟩, ⟨query⟩⟩
  | r =>
    let path := r.takeWhile (fun c => c ≠ '?')
    let query := (r.drop path.length).drop 1
    ⟨"", ⟨path⟩, ⟨query⟩⟩

/-- Embedding of `urllib.parse.parse_qs` as used at source line 176, as
an ordered association list: pairs are separated by `'&'`, a pair
without `'='` or with an empty value is skipped, and `parse_qs(q)[k][0]`
corresponds to the first value listed for `k`. -/
def parse_qs (query : String) : List (String × String) :=
  (splitOnChar '&' query.data).filterMap fun pair =>
    if pair.any (fun c => c = '=') then
      let name := pair.takeWhile (fun c => c ≠ '=')
      let value := (pair.drop name.length).drop 1
      if value = [] then none else some (⟨name⟩, ⟨value⟩)
    else none

/-- First value bound to a key in an association list; models both the
`parse_qs(...)['v'][0]` dictionary access (a missing key raises
`KeyError`, modelled as `none`) and the thumbnail-cache dictionary. -/
def assocLookup : List (String × String) → String → Option String
  | [], _ => none
  | (k, v) :: rest, u => if k = u then some v else assocLookup rest u

/-- Python `path.split('/')[-1]` (source line 178). -/
def lastSlashPiece (path : String) : String :=
  ⟨(splitOnChar '/' path.data).getLastD []⟩

/-- The derivation step of `get_youtube_thumbnail` (source lines
172-189): host recognition, video-identifier extraction per URL shape,
and construction of the max-resolution preview URL.  The enclosing bare
`except` corresponds to the `none` results (the only reachable
exception, the `KeyError` on a missing `v` parameter, is modelled
directly). -/
def derive_thumbnail (url : String) : Option String :=
  let p := urlparse url
  if p.netloc = "www.youtube.com" ∨ p.netloc = "youtube.com" ∨ p.netloc = "youtu.be" then
    if containsSub "youtube.com".data p.netloc.data then
      if p.path = "/watch" then
        match assocLookup (parse_qs p.query) "v" with
        | some v => some ("https://img.youtube.com/vi/" ++ v ++ "/maxresdefault.jpg")
        | none => none
      else if "/shorts/".data.isPrefixOf p.path.data then
        some ("https://img.youtube.com/vi/" ++ lastSlashPiece p.path ++ "/maxresdefault.jpg")
      else none
    else if containsSub "youtu.be".data p.netloc.data then
      some ("https://img.youtube.com/vi/" ++ (⟨p.path.data.drop 1⟩ : String) ++ "/maxresdefault.jpg")
    else none
  else none

/-- Embedding of `get_youtube_thumbnail` (source lines 165-191) with the
module-level `thumbnail_cache` dictionary made explicit.  Returns the
resolved value, the cache afterwards, and how many times the derivation
work ran (0 on a cache hit, 1 otherwise).  Only a successfully derived
thumbnail URL is stored in the cache (source line 186); a `None` result
is returned without being cached. -/
def get_youtube_thumbnail (cache : List (String × String)) (url : String) :
    Option String × List (String × String) × Nat :=
  match assocLookup cache url with
  | some v => (some v, cache, 0)
  | none =>
    match derive_thumbnail url with
    | some t => (some t, (url, t) :: cache, 1)
    | none => (none, cache, 1)

theorem sanitize_data (s : String) :
    (sanitize_filename s).data = (s.data.map sanitizeChar).take 255 := by
  unfold sanitize_filename sanitizeChar
  simp only [List.map_map]
  congr 1

theorem sanitizeChar_fixed (c : Char) (hr : reservedChar c = false) (hs : c ≠ ' ') :
    sanitizeChar c = c := by
  unfold sanitizeChar
  simp [hr, hs]

theorem sanitizeChar_not_reserved (c : Char) :
    reservedChar (sanitizeChar c) = false ∧ sanitizeChar c ≠ ' ' := by
  by_cases h : reservedChar c = true
  · have h1 : sanitizeChar c = '_' := by unfold sanitizeChar; simp [h]
    rw [h1]; decide
  · rw [Bool.not_eq_true] at h
    by_cases hs : c = ' '
    · have h1 : sanitizeChar c = '_' := by subst hs; decide
      rw [h1]; decide
    · rw [sanitizeChar_fixed c h hs]
      exact ⟨h, hs⟩

theorem sanitize_chars_ok (s : String) :
    ∀ c ∈ (sanitize_filename s).data, reservedChar c = false ∧ c ≠ ' ' := by
  intro c hc
  rw [sanitize_data] at hc
  obtain ⟨d, _, rfl⟩ := List.mem_map.mp ((List.take_prefix 255 _).subset hc)
  exact sanitizeChar_not_reserved d

theorem sanitize_map_fixed (s : String) :
    (sanitize_filename s).data.map sanitizeChar = (sanitize_filename s).data := by
  have h : ∀ c ∈ (sanitize_filename s).data, sanitizeChar c = c := by
    intro c hc
    obtain ⟨hr, hs⟩ := sanitize_chars_ok s c hc
    exact sanitizeChar_fixed _ hr hs
  calc (sanitize_filename s).data.map sanitizeChar
      = (sanitize_filename s).data.map id := List.map_congr_left h
    _ = (sanitize_filename s).data := List.map_id _

/-- C4: for every string `s`, `sanitize_filename s` contains no character
of the reserved set, no control characters (code points 0x00-0x1F and
0x7F) and no spaces, its length is at most 255, and the sanitizer is
idempotent. -/
theorem sanitize_safe_and_idempotent (s : String) :
    (∀ c ∈ (sanitize_filename s).data,
        c ∉ ['<', '>', ':', '"', '/', '\\', '|', '?', '*', '[', ']', '#'] ∧
        ¬c.toNat ≤ 31 ∧ c.toNat ≠ 127 ∧ c ≠ ' ') ∧
    (sanitize_filename s).length ≤ 255 ∧
    sanitize_filename (sanitize_filename s) = sanitize_filename s := by
  refine ⟨?_, ?_, ?_⟩
  · intro c hc
    obtain ⟨hr, hs⟩ := sanitize_chars_ok s c hc
    unfold reservedChar at hr
    simp only [Bool.or_eq_false_iff, decide_eq_false_iff_not] at hr
    simp only [List.mem_cons, List.not_mem_nil, or_false]
    tauto
  · show (sanitize_filename s).data.length ≤ 255
    rw [sanitize_data, List.length_take]
    omega
  · have h : (sanitize_filename (sanitize_filename s)).data = (sanitize_filename s).data := by
      rw [sanitize_data (sanitize_filename s), sanitize_map_fixed, sanitize_data s,
        List.take_take]
      simp
    exact congrArg String.mk h

/-- C9: the sanitizer also replaces every comma with an underscore, even
though the comma is not part of the documented reserved set; in
particular `sanitize_filename "a,b" = "a_b"`. -/
theorem sanitize_replaces_comma :
    (∀ s : String, ',' ∉ (sanitize_filename s).data) ∧
    sanitize_filename "a,b" = "a_b" := by
  constructor
  · intro s hc
    have h := (sanitize_chars_ok s ',' hc).1
    have hr : reservedChar ',' = true := by decide
    rw [hr] at h
    exact Bool.true_eq_false.mp h
  · decide

/-- C9 witness: the comma theorem applied at concrete strings. -/
theorem sanitize_replaces_comma_witness :
    ',' ∉ (sanitize_filename "x,y").data ∧ sanitize_filename "a,b" = "a_b" :=
  ⟨sanitize_replaces_comma.1 "x,y", sanitize_replaces_comma.2⟩

/-- C4 witness: the safety and idempotence theorem applied at the
concrete string `"a b"` and the concrete character `'a'` of its
sanitized form. -/
theorem sanitize_safe_and_idempotent_witness :
    ('a' ∉ ['<', '>', ':', '"', '/', '\\', '|', '?', '*', '[', ']', '#'] ∧
      ¬('a'.toNat ≤ 31) ∧ ('a'.toNat ≠ 127) ∧ ('a' ≠ ' ')) ∧
    (sanitize_filename "a b").length ≤ 255 ∧
    sanitize_filename (sanitize_filename "a b") = sanitize_filename "a b" :=
  ⟨(sanitize_safe_and_idempotent "a b").1 'a' (by decide),
    (sanitize_safe_and_idempotent "a b").2.1,
    (sanitize_safe_and_idempotent "a b").2.2⟩

theorem publishValue_of_parse (pct : String) (n : Nat)
    (h : parseDigits (stripPercent (pct.data.filter fun c => c.isDigit || c = '%')) = some n) :
    publishValue pct = (n : ℚ) / 100 := by
  unfold publishValue
  simp only [h]

theorem publishValue_of_parse_none (pct : String)
    (h : parseDigits (stripPercent (pct.data.filter fun c => c.isDigit || c = '%')) = none) :
    publishValue pct = 0 := by
  unfold publishValue
  simp only [h]

theorem publishValue_shape (pct : String) : ∃ n : ℕ, publishValue pct = (n : ℚ) / 100 := by
  cases h : parseDigits (stripPercent (pct.data.filter fun c => c.isDigit || c = '%')) with
  | some n => exact ⟨n, publishValue_of_parse pct n h⟩
  | none => exact ⟨0, by rw [publishValue_of_parse_none pct h]; norm_num⟩

theorem update_progress_not_downloading (st : String) (p : Option String)
    (h : st ≠ "downloading") : update_progress false ⟨st, p⟩ = Except.ok none := by
  unfold update_progress
  simp [h]

theorem update_progress_no_percent (st : String) :
    update_progress false ⟨st, none⟩ = Except.ok none := by
  unfold update_progress
  by_cases h : st = "downloading" <;> simp [h]

theorem update_progress_some (d : ProgressEvent) (q : ℚ)
    (h : update_progress false d = Except.ok (some q)) :
    ∃ pct, d.percentStr = some pct ∧ q = publishValue pct := by
  unfold update_progress at h
  by_cases hs : d.status = "downloading"
  · cases hp : d.percentStr with
    | some pct =>
      rw [hp] at h
      simp [hs] at h
      exact ⟨pct, rfl, h.symm⟩
    | none =>
      rw [hp] at h
      simp [hs] at h
  · simp [hs] at h

/-- C3 counterexample: on the spec's own literal input `"45.2%"` the hook
publishes `4.52` (the decimal point is dropped and `452` is parsed),
not `0.45`, and the published value is not in `[0, 1]`. -/
theorem progress_fractional_percent_not_normalized :
    update_progress false ⟨"downloading", some "45.2%"⟩ =
      Except.ok (some (publishValue "45.2%")) ∧
    publishValue "45.2%" = 452 / 100 ∧
    (452 : ℚ) / 100 ≠ 45 / 100 ∧ ¬(452 : ℚ) / 100 ≤ 1 := by
  refine ⟨rfl, ?_, by norm_num, by norm_num⟩
  rw [publishValue_of_parse "45.2%" 452 (by decide)]
  norm_num

/-- C3 amended: the reporter keeps only digit and `'%'` characters,
strips `'%'` from both ends, parses the remainder as an integer and
publishes that integer divided by 100 — a nonnegative value of the form
`n / 100` that is not necessarily in `[0, 1]` (raw `"45.2%"` publishes
`4.52`); unparseable text publishes `0`, and an event whose status is
not `"downloading"` or that carries no percent value publishes
nothing. -/
theorem progress_publish_behavior :
    publishValue "45.2%" = 452 / 100 ∧
    publishValue "--%" = 0 ∧
    (∀ st p, st ≠ "downloading" → update_progress false ⟨st, p⟩ = Except.ok none) ∧
    (∀ st, update_progress false ⟨st, none⟩ = Except.ok none) ∧
    (∀ d q, update_progress false d = Except.ok (some q) →
      0 ≤ q ∧ ∃ n : ℕ, q = (n : ℚ) / 100) := by
  refine ⟨?_, publishValue_of_parse_none "--%" (by decide),
    update_progress_not_downloading, update_progress_no_percent, ?_⟩
  · rw [publishValue_of_parse "45.2%" 452 (by decide)]
    norm_num
  · intro d q h
    obtain ⟨pct, _, rfl⟩ := update_progress_some d q h
    obtain ⟨n, hn⟩ := publishValue_shape pct
    rw [hn]
    exact ⟨by positivity, n, rfl⟩

/-- C3 witness: the amended theorem applied at concrete inputs. -/
theorem progress_publish_behavior_witness :
    update_progress false ⟨"finished", some "10%"⟩ = Except.ok none ∧
    update_progress false ⟨"downloading", none⟩ = Except.ok none ∧
    (0 ≤ (452 : ℚ) / 100 ∧ ∃ n : ℕ, (452 : ℚ) / 100 = (n : ℚ) / 100) := by
  refine ⟨progress_publish_behavior.2.2.1 "finished" (some "10%") (by decide),
    progress_publish_behavior.2.2.2.1 "downloading", ?_⟩
  have h1 := progress_publish_behavior.1
  have h2 : update_progress false ⟨"downloading", some "45.2%"⟩ =
      Except.ok (some ((452 : ℚ) / 100)) := by
    rw [← h1]; rfl
  exact progress_publish_behavior.2.2.2.2 ⟨"downloading", some "45.2%"⟩ ((452 : ℚ) / 100) h2

/-- C1 counterexample: a run whose cancellation flag is set before its
single progress callback returns the very same value `None`
(`Except.ok none`) that a run failing with a generic engine error
returns — the code has no distinct `Cancelled` outcome; cancellation is
mapped to the generic failure value. -/
theorem cancellation_not_distinct_from_failure :
    download_best_stream "/home/user" (Except.ok ()) true true
      ⟨[⟨"downloading", some "10.0%"⟩], EngineBehavior.ok (some "Title") (some "mp4")⟩ =
      Except.ok none ∧
    download_best_stream "/home/user" (Except.ok ()) false true
      ⟨[], EngineBehavior.downloadError "network error"⟩ = Except.ok none :=
  ⟨rfl, rfl⟩

/-- C1 amended: if the cancellation flag is set before the first progress
callback fires and at least one callback fires, the orchestration never
returns `Success`: the hook's cancellation exception aborts the engine
and the generic handler converts it to the failure return value `None`
— the same value as the generic `Failed` outcome, there being no
distinct `Cancelled` variant in the code. -/
theorem cancelled_run_never_success (cwd : String) (events : List ProgressEvent)
    (beh : EngineBehavior) (h : events ≠ []) :
    download_best_stream cwd (Except.ok ()) true true ⟨events, beh⟩ = Except.ok none := by
  cases events with
  | nil => exact absurd rfl h
  | cons e rest =>
    unfold download_best_stream extract_info run_hooks update_progress
    simp

/-- C1 witness: the amended theorem applied at a concrete one-event run. -/
theorem cancelled_run_never_success_witness :
    download_best_stream "/home/user" (Except.ok ()) true true
      ⟨[⟨"finished", none⟩], EngineBehavior.ok none none⟩ = Except.ok none :=
  cancelled_run_never_success "/home/user" [⟨"finished", none⟩]
    (EngineBehavior.ok none none) (by simp)

/-- C2 counterexample: a filesystem failure raised by the
`create_folders()` call — which sits before the `try` block — escapes
`download_best_stream` as an exception instead of becoming the failure
return value. -/
theorem layout_failure_escapes :
    download_best_stream "/home/user" (Except.error "PermissionError: youtube_downloads")
      false true ⟨[], EngineBehavior.ok (some "Title") (some "mp4")⟩ =
      Except.error "PermissionError: youtube_downloads" := rfl

/-- C2 amended: once the layout-ensure call has succeeded, no exception
escapes any of the four orchestration functions: every engine failure,
cancellation included, is caught inside the `try` block and converted
into a returned value. -/
theorem engine_failures_never_escape (cwd : String) (stopSet hooksOn : Bool)
    (run : EngineRun) :
    (∃ r, download_best_stream cwd (Except.ok ()) stopSet hooksOn run = Except.ok r) ∧
    (∃ r, download_audio cwd (Except.ok ()) stopSet hooksOn run = Except.ok r) ∧
    (∃ r, download_playlist cwd (Except.ok ()) stopSet hooksOn run = Except.ok r) ∧
    (∃ r, download_channel cwd (Except.ok ()) stopSet hooksOn run = Except.ok r) := by
  unfold download_best_stream download_audio download_playlist download_channel ydl_download
  cases h : extract_info stopSet hooksOn run with
  | ok v => obtain ⟨t, e⟩ := v; simp [h]
  | error err => cases err <;> simp [h]

theorem extract_info_ok {stopSet hooksOn : Bool} {run : EngineRun} {t e : Option String}
    (h : extract_info stopSet hooksOn run = Except.ok (t, e)) :
    run.behavior = EngineBehavior.ok t e := by
  unfold extract_info at h
  cases hr : run_hooks stopSet hooksOn run.events with
  | error m => rw [hr] at h; exact absurd h (by simp)
  | ok u =>
    cases u
    rw [hr] at h
    cases hb : run.behavior with
    | ok t2 e2 =>
      rw [hb] at h
      simp only [Except.ok.injEq, Prod.mk.injEq] at h
      rw [h.1, h.2]
    | downloadError m => rw [hb] at h; exact absurd h (by simp)
    | unexpectedError m => rw [hb] at h; exact absurd h (by simp)

/-- C5: whenever an orchestration call returns a success value, that
value is: for `download_best_stream` the video folder joined with the
sanitized engine-reported title and the reported extension; for
`download_audio` the audio folder joined with the sanitized title and
the fixed `.mp3` extension; and for the collection modes
(`download_playlist`, `download_channel`) the destination video folder
itself, never an individual item path. -/
theorem success_path_shapes (cwd : String) (fsResult : Except String Unit)
    (stopSet hooksOn : Bool) (run : EngineRun) (p : String) :
    (download_best_stream cwd fsResult stopSet hooksOn run = Except.ok (some p) →
      ∃ t e, run.behavior = EngineBehavior.ok t e ∧
        p = os_path_join (VIDEO_FOLDER cwd)
              (sanitize_filename (t.getD "Untitled") ++ "." ++ e.getD "mp4")) ∧
    (download_audio cwd fsResult stopSet hooksOn run = Except.ok (some p) →
      ∃ t e, run.behavior = EngineBehavior.ok t e ∧
        p = os_path_join (AUDIO_FOLDER cwd)
              (sanitize_filename (t.getD "Untitled") ++ ".mp3")) ∧
    (download_playlist cwd fsResult stopSet hooksOn run = Except.ok (some p) →
      p = VIDEO_FOLDER cwd) ∧
    (download_channel cwd fsResult stopSet hooksOn run = Except.ok (some p) →
      p = VIDEO_FOLDER cwd) := by
  refine ⟨?_, ?_, ?_, ?_⟩ <;> intro h
  · cases fsResult with
    | error m => unfold download_best_stream at h; exact absurd h (by simp)
    | ok u =>
      cases u
      unfold download_best_stream at h
      cases hx : extract_info stopSet hooksOn run with
      | ok v =>
        obtain ⟨t, e⟩ := v
        rw [hx] at h
        simp only [Except.ok.injEq, Option.some.injEq] at h
        exact ⟨t, e, extract_info_ok hx, h.symm⟩
      | error err =>
        rw [hx] at h
        cases err <;> simp at h
  · cases fsResult with
    | error m => unfold download_audio at h; exact absurd h (by simp)
    | ok u =>
      cases u
      unfold download_audio at h
      cases hx : extract_info stopSet hooksOn run with
      | ok v =>
        obtain ⟨t, e⟩ := v
        rw [hx] at h
        simp only [Except.ok.injEq, Option.some.injEq] at h
        exact ⟨t, e, extract_info_ok hx, h.symm⟩
      | error err =>
        rw [hx] at h
        cases err <;> simp at h
  · cases fsResult with
    | error m => unfold download_playlist at h; exact absurd h (by simp)
    | ok u =>
      cases u
      unfold download_playlist at h
      cases hy : ydl_download stopSet hooksOn run with
      | ok u2 =>
        cases u2
        rw [hy] at h
        simp only [Except.ok.injEq, Option.some.injEq] at h
        exact h.symm
      | error e2 => rw [hy] at h; simp at h
  · cases fsResult with
    | error m => unfold download_channel at h; exact absurd h (by simp)
    | ok u =>
      cases u
      unfold download_channel at h
      cases hy : ydl_download stopSet hooksOn run with
      | ok u2 =>
        cases u2
        rw [hy] at h
        simp only [Except.ok.injEq, Option.some.injEq] at h
        exact h.symm
      | error e2 => rw [hy] at h; simp at h

/-- C5 witness: the path-shape theorem applied at concrete successful
runs of the video and playlist modes. -/
theorem success_path_shapes_witness :
    (∃ t e, (⟨[], EngineBehavior.ok (some "My Video") (some "mp4")⟩ : EngineRun).behavior =
        EngineBehavior.ok t e ∧
      "/h/youtube_downloads/Videos/My_Video.mp4" =
        os_path_join (VIDEO_FOLDER "/h")
          (sanitize_filename (t.getD "Untitled") ++ "." ++ e.getD "mp4")) ∧
    "/h/youtube_downloads/Videos" = VIDEO_FOLDER "/h" := by
  constructor
  · exact (success_path_shapes "/h" (Except.ok ()) false true
      ⟨[], EngineBehavior.ok (some "My Video") (some "mp4")⟩
      "/h/youtube_downloads/Videos/My_Video.mp4").1 rfl
  · exact (success_path_shapes "/h" (Except.ok ()) false true
      ⟨[], EngineBehavior.ok (some "My Video") (some "mp4")⟩
      "/h/youtube_downloads/Videos").2.2.1 rfl

theorem mem_makedirs_self (p : String) (fs : List String) : p ∈ makedirs p fs := by
  unfold makedirs
  by_cases h : p ∈ fs <;> simp [h]

theorem mem_makedirs_of_mem (p q : String) (fs : List String) (h : p ∈ fs) :
    p ∈ makedirs q fs := by
  unfold makedirs
  by_cases hq : q ∈ fs <;> simp [hq, h]

theorem makedirs_eq_of_mem (p : String) (fs : List String) (h : p ∈ fs) :
    makedirs p fs = fs := by
  unfold makedirs
  simp [h]

/-- C8: the layout-ensure operation is idempotent: on any filesystem
state it makes the root, video and audio directories exist, and running
it a second time is a no-op (and, the operation being total, raises no
error). -/
theorem create_folders_idempotent (cwd : String) (fs : List String) :
    DOWNLOAD_FOLDER cwd ∈ create_folders cwd fs ∧
    VIDEO_FOLDER cwd ∈ create_folders cwd fs ∧
    AUDIO_FOLDER cwd ∈ create_folders cwd fs ∧
    create_folders cwd (create_folders cwd fs) = create_folders cwd fs := by
  have hd : DOWNLOAD_FOLDER cwd ∈ create_folders cwd fs :=
    mem_makedirs_of_mem _ _ _ (mem_makedirs_of_mem _ _ _ (mem_makedirs_self _ _))
  have hv : VIDEO_FOLDER cwd ∈ create_folders cwd fs :=
    mem_makedirs_of_mem _ _ _ (mem_makedirs_self _ _)
  have ha : AUDIO_FOLDER cwd ∈ create_folders cwd fs := mem_makedirs_self _ _
  refine ⟨hd, hv, ha, ?_⟩
  show makedirs (AUDIO_FOLDER cwd) (makedirs (VIDEO_FOLDER cwd)
    (makedirs (DOWNLOAD_FOLDER cwd) (create_folders cwd fs))) = create_folders cwd fs
  rw [makedirs_eq_of_mem _ _ hd, makedirs_eq_of_mem _ _ hv, makedirs_eq_of_mem _ _ ha]

/-- C6: the thumbnail resolver extracts the video identifier for each
recognized URL shape — `watch` query parameter, short-link path,
`shorts` path segment — and returns the max-resolution preview URL
built from it; an unrecognized host yields absence. -/
theorem thumbnail_literal_cases :
    (get_youtube_thumbnail [] "https://www.youtube.com/watch?v=ABC123").1 =
      some "https://img.youtube.com/vi/ABC123/maxresdefault.jpg" ∧
    (get_youtube_thumbnail [] "https://youtu.be/XYZ789").1 =
      some "https://img.youtube.com/vi/XYZ789/maxresdefault.jpg" ∧
    (get_youtube_thumbnail [] "https://www.youtube.com/shorts/QWE456").1 =
      some "https://img.youtube.com/vi/QWE456/maxresdefault.jpg" ∧
    (get_youtube_thumbnail [] "https://example.com/video").1 = none :=
  ⟨by decide, by decide, by decide, by decide⟩

/-- C10: a short-link-host URL with an empty path segment is not treated
as absent: the resolver builds a preview URL from the empty identifier. -/
theorem thumbnail_empty_id_not_absent :
    (get_youtube_thumbnail [] "https://youtu.be/").1 =
      some "https://img.youtube.com/vi//maxresdefault.jpg" ∧
    (get_youtube_thumbnail [] "https://youtu.be").1 =
      some "https://img.youtube.com/vi//maxresdefault.jpg" :=
  ⟨by decide, by decide⟩

/-- C7 counterexample: for a URL that resolves to absent, the result is
not stored in the cache (the cache stays empty) and the second call
performs the derivation work again (work count 1, not 0). -/
theorem absent_thumbnail_not_cached :
    (get_youtube_thumbnail [] "https://example.com/video").1 = none ∧
    (get_youtube_thumbnail [] "https://example.com/video").2.1 = [] ∧
    (get_youtube_thumbnail [] "https://example.com/video").2.2 = 1 ∧
    (get_youtube_thumbnail (get_youtube_thumbnail [] "https://example.com/video").2.1
      "https://example.com/video").2.2 = 1 :=
  ⟨by decide, by decide, by decide, by decide⟩

/-- C7 amended: resolving the same URL twice from a fresh cache returns
the identical result both times; when the first resolution produced a
thumbnail URL it is cached, so the second call does no derivation work —
but an absent result is not cached, so only present results enjoy the
single-derivation property. -/
theorem thumbnail_cache_behavior (url : String) :
    (get_youtube_thumbnail (get_youtube_thumbnail [] url).2.1 url).1 =
      (get_youtube_thumbnail [] url).1 ∧
    (∀ v, (get_youtube_thumbnail [] url).1 = some v →
      (get_youtube_thumbnail (get_youtube_thumbnail [] url).2.1 url).2.2 = 0) := by
  have h0 : assocLookup [] url = none := rfl
  cases hd : derive_thumbnail url with
  | some t =>
    have h1 : get_youtube_thumbnail [] url = (some t, [(url, t)], 1) := by
      unfold get_youtube_thumbnail
      rw [h0, hd]
    have h2 : get_youtube_thumbnail [(url, t)] url = (some t, [(url, t)], 0) := by
      unfold get_youtube_thumbnail
      have hl : assocLookup [(url, t)] url = some t := by unfold assocLookup; simp
      rw [hl]
    constructor
    · simp [h1, h2]
    · intro v _
      simp [h1, h2]
  | none =>
    have h1 : get_youtube_thumbnail [] url = (none, [], 1) := by
      unfold get_youtube_thumbnail
      rw [h0, hd]
    constructor
    · simp [h1]
    · intro v hv
      rw [h1] at hv
      exact absurd hv (by simp)

/-- C7 witness: the amended theorem applied at a URL that resolves to a
present thumbnail. -/
theorem thumbnail_cache_behavior_witness :
    (get_youtube_thumbnail (get_youtube_thumbnail [] "https://youtu.be/XYZ789").2.1
        "https://youtu.be/XYZ789").2.2 = 0 ∧
    (get_youtube_thumbnail (get_youtube_thumbnail [] "https://youtu.be/XYZ789").2.1
        "https://youtu.be/XYZ789").1 = (get_youtube_thumbnail [] "https://youtu.be/XYZ789").1 :=
  ⟨(thumbnail_cache_behavior "https://youtu.be/XYZ789").2
      "https://img.youtube.com/vi/XYZ789/maxresdefault.jpg" (by decide),
    (thumbnail_cache_behavior "https://youtu.be/XYZ789").1⟩
